import Mathlib

/-!
Shallow embedding of the layout/grouping/reservation engine of the
LocalReservationWebapp server (src/server/src/index.js) over the SQLite
schema (src/server/db/schema.sql).

Modelling conventions:
* Each SQL table is a Lean list of rows; AUTOINCREMENT primary keys are
  modelled by explicit next-id counters (SQLite AUTOINCREMENT never reuses
  an id, so fresh ids are strictly larger than all previously issued ones).
* Row ids are Nat.  Numeric JSON body fields pass through a
  Number.isFinite guard in the source; a field that is absent, NaN,
  infinite or not a number is modelled as none, a finite number as some.
  Finite numbers used as ids or partySize are modelled as Int (every claim
  is insensitive to non-integral finite inputs: a fractional id matches no
  row and fails the foreign key exactly as a wrong integral id does).
  Coordinates, where Math.round matters, are modelled as Rat.
* Math.round on a finite number is floor (x + 1/2).
* Each handler returns (response, database): an error response is produced
  before any write runs in the source (or, for the foreign-key failure of
  a single INSERT/UPDATE statement, the statement is rolled back whole),
  so the database component on an error path is the input database.
  HTTP statuses are mapped to the error kinds of the spec: 404 notFound,
  409 conflict, 400 validationError, and a caught SQLite error (a foreign
  key violation surfaced as a 500) serverError.
-/

structure CatalogTable where
  id : Nat
  name : String
  defaultX : Int
  defaultY : Int
  width : Nat
  height : Nat
  capacity : Option Nat
deriving Repr, DecidableEq

structure LayoutInstance where
  id : Nat
  date : String
deriving Repr, DecidableEq

structure GroupRow where
  id : Nat
  layoutInstanceId : Nat
deriving Repr, DecidableEq

structure TableState where
  layoutInstanceId : Nat
  tableId : Nat
  x : Int
  y : Int
  groupId : Option Nat
deriving Repr, DecidableEq

structure Reservation where
  id : Nat
  layoutInstanceId : Nat
  groupId : Nat
  time : String
  name : String
  partySize : Int
  notes : Option String
  createdAt : String
  updatedAt : String
deriving Repr, DecidableEq

structure DB where
  tables : List CatalogTable
  layoutInstances : List LayoutInstance
  tableGroups : List GroupRow
  tableState : List TableState
  reservations : List Reservation
  nextLayoutId : Nat
  nextGroupId : Nat
  nextReservationId : Nat
deriving Repr, DecidableEq

inductive ApiError where
  | notFound
  | conflict
  | validationError
  | serverError
deriving Repr, DecidableEq

deriving instance DecidableEq for Except

/-- Comparison of a stored Nat id with a JSON-supplied finite number. -/
def matchesId (n : Nat) (g : Int) : Prop := (n : Int) = g

instance (n : Nat) (g : Int) : Decidable (matchesId n g) := by
  unfold matchesId; infer_instance

/-- Math.round x in the source, on a finite input: floor (x + 1/2),
computed on the reduced numerator and denominator so that the kernel can
evaluate it.  The lemma jsRound_eq_floor below checks the arithmetic. -/
def jsRound (q : ℚ) : Int := (2 * q.num + (q.den : Int)) / (2 * (q.den : Int))

/-- JavaScript truthiness of a string-or-missing JSON field:
the guards !time and !name reject a missing field and the empty string. -/
def jsTruthy : Option String → Bool
  | none => false
  | some s => !(s == "")

/-- The expression notes || null of the source: a falsy notes value is
stored as NULL. -/
def jsNotes : Option String → Option String
  | none => none
  | some s => if s = "" then none else some s

/-- Lookup of the layout instance for a date:
SELECT id FROM layout_instances WHERE date = ? (date is UNIQUE). -/
def findLayout (date : String) (db : DB) : Option LayoutInstance :=
  db.layoutInstances.find? (fun li => decide (li.date = date))

/-- The ensureLayoutInstance function of the source: return the existing
instance for the date, or create it and seed one table_state row per
catalog table with the default position and no group. -/
def ensureLayoutInstance (date : String) (db : DB) : (Nat × Bool) × DB :=
  match findLayout date db with
  | some row => ((row.id, true), db)
  | none =>
      let layoutId := db.nextLayoutId
      ((layoutId, false),
        { db with
          layoutInstances := db.layoutInstances ++ [{ id := layoutId, date := date }],
          tableState := db.tableState ++ db.tables.map (fun t =>
            { layoutInstanceId := layoutId, tableId := t.id,
              x := t.defaultX, y := t.defaultY, groupId := none }),
          nextLayoutId := layoutId + 1 })

structure PayloadTable where
  tableId : Nat
  x : Int
  y : Int
  groupId : Option Nat
  name : String
  width : Nat
  height : Nat
  capacity : Option Nat
deriving Repr, DecidableEq

structure GroupEntry where
  groupId : Nat
  tableIds : List Nat
deriving Repr, DecidableEq

structure Payload where
  layoutInstanceId : Nat
  tables : List PayloadTable
  groups : List GroupEntry
  reservations : List Reservation
deriving Repr, DecidableEq

/-- The fetchLayoutPayload function of the source: table_state rows of the
instance joined with the catalog (tables.id is the primary key, so the
join is a lookup), the non-null group assignments aggregated per group,
and the reservations of the instance.  The ORDER BY ts.tableId of the
source only fixes the presentation order of the rows and is immaterial to
every property below, so the rows are kept in store order. -/
def fetchLayoutPayload (layoutInstanceId : Nat) (db : DB) : Payload :=
  let rows := db.tableState.filter (fun ts => decide (ts.layoutInstanceId = layoutInstanceId))
  { layoutInstanceId := layoutInstanceId,
    tables := rows.filterMap (fun ts =>
      (db.tables.find? (fun t => decide (t.id = ts.tableId))).map (fun t =>
        { tableId := ts.tableId, x := ts.x, y := ts.y, groupId := ts.groupId,
          name := t.name, width := t.width, height := t.height, capacity := t.capacity })),
    groups := ((rows.filterMap (fun ts => ts.groupId)).dedup).map (fun g =>
      { groupId := g,
        tableIds := (rows.filter (fun ts => decide (ts.groupId = some g))).map (fun ts => ts.tableId) }),
    reservations := db.reservations.filter (fun r => decide (r.layoutInstanceId = layoutInstanceId)) }

/-- The GET /api/layout/:date handler: 404 when no instance exists for the
date, otherwise the composed payload. -/
def getSnapshot (date : String) (db : DB) : Except ApiError Payload :=
  match findLayout date db with
  | none => Except.error ApiError.notFound
  | some layout => Except.ok (fetchLayoutPayload layout.id db)

/-- The groupId body field of PUT /api/layout/:date/table/:tableId.
The source distinguishes groupId === null from a finite number from
everything else (absent, NaN, a string, ...). -/
inductive GroupIdField where
  | absent
  | null
  | num (g : Int)
deriving Repr, DecidableEq

/-- Application of the accumulated SET clauses of the position update to
one table_state row. -/
def applyUpd (x y : Option ℚ) (gid : GroupIdField) (ts : TableState) : TableState :=
  let ts1 := match x with
    | some q => { ts with x := jsRound q }
    | none => ts
  let ts2 := match y with
    | some q => { ts1 with y := jsRound q }
    | none => ts1
  match gid with
  | GroupIdField.null => { ts2 with groupId := none }
  | GroupIdField.num g => { ts2 with groupId := some g.toNat }
  | GroupIdField.absent => ts2

/-- The table_state list after the UPDATE of the position endpoint:
SET clauses applied to the rows matching layoutInstanceId and tableId. -/
def posUpdatedRows (layoutId tableId : Nat) (x y : Option ℚ) (gid : GroupIdField)
    (rows : List TableState) : List TableState :=
  rows.map (fun ts =>
    if ts.layoutInstanceId = layoutId ∧ ts.tableId = tableId then applyUpd x y gid ts else ts)

/-- The PUT /api/layout/:date/table/:tableId handler.  The x and y body
fields take effect only when finite (some); groupId when null or finite.
With no effective field the request is rejected 400.  Writing a finite
groupId that matches no table_groups row violates the foreign key on
table_state.groupId when a row is actually updated, which the source
surfaces as a caught 500; the statement writes nothing in that case. -/
def updatePosition (date : String) (tableId : Nat) (x y : Option ℚ) (gid : GroupIdField)
    (db : DB) : Except ApiError Unit × DB :=
  match findLayout date db with
  | none => (Except.error ApiError.notFound, db)
  | some layout =>
    if x = none ∧ y = none ∧ gid = GroupIdField.absent then
      (Except.error ApiError.validationError, db)
    else
      let rowTouched := db.tableState.any (fun ts =>
        decide (ts.layoutInstanceId = layout.id ∧ ts.tableId = tableId))
      let fkOk : Bool :=
        match gid with
        | GroupIdField.num g => !rowTouched || db.tableGroups.any (fun gr => decide (matchesId gr.id g))
        | _ => true
      if fkOk then
        (Except.ok (),
          { db with tableState := posUpdatedRows layout.id tableId x y gid db.tableState })
      else
        (Except.error ApiError.serverError, db)

/-- SELECT DISTINCT groupId FROM table_state
WHERE layoutInstanceId = ? AND tableId IN (tableIds) AND groupId IS NOT NULL. -/
def implicatedGroups (layoutId : Nat) (tableIds : List Nat) (rows : List TableState) : List Nat :=
  ((rows.filter (fun ts =>
    decide (ts.layoutInstanceId = layoutId ∧ ts.tableId ∈ tableIds))).filterMap
      (fun ts => ts.groupId)).dedup

/-- UPDATE table_state SET groupId = NULL
WHERE layoutInstanceId = ? AND tableId IN (tableIds). -/
def clearGroups (layoutId : Nat) (tableIds : List Nat) (rows : List TableState) : List TableState :=
  rows.map (fun ts =>
    if ts.layoutInstanceId = layoutId ∧ ts.tableId ∈ tableIds then
      { ts with groupId := none } else ts)

/-- SELECT DISTINCT groupId FROM table_state
WHERE layoutInstanceId = ? AND groupId IS NOT NULL. -/
def referencedGroupIds (layoutId : Nat) (rows : List TableState) : List Nat :=
  (rows.filter (fun ts => decide (ts.layoutInstanceId = layoutId))).filterMap (fun ts => ts.groupId)

/-- UPDATE table_state SET groupId = ?
WHERE layoutInstanceId = ? AND tableId IN (tableIds). -/
def assignGroup (layoutId : Nat) (tableIds : List Nat) (gid : Nat)
    (rows : List TableState) : List TableState :=
  rows.map (fun ts =>
    if ts.layoutInstanceId = layoutId ∧ ts.tableId ∈ tableIds then
      { ts with groupId := some gid } else ts)

/-- Final part of the group handler, run on the database state left by the
regroup cleanup: INSERT a fresh table_groups row and assign its id to
every requested table of the instance. -/
def finishGroup (layoutId : Nat) (tableIds : List Nat) (db1 : DB) : Nat × DB :=
  let gid := db1.nextGroupId
  (gid,
    { db1 with
      tableGroups := db1.tableGroups ++ [{ id := gid, layoutInstanceId := layoutId }],
      tableState := assignGroup layoutId tableIds gid db1.tableState,
      nextGroupId := gid + 1 })

/-- The POST /api/layout/:date/group handler.  When some requested table
already belongs to a group, the operation conflicts if any implicated
group carries a reservation; otherwise it clears the membership of the
requested tables, deletes the implicated groups of the instance that are
left unreferenced, and in every non-error case creates one fresh group
and assigns it to the requested tables. -/
def groupTables (date : String) (tableIds : List Nat) (db : DB) : Except ApiError Nat × DB :=
  if tableIds.isEmpty then (Except.error ApiError.validationError, db)
  else
    match findLayout date db with
    | none => (Except.error ApiError.notFound, db)
    | some layout =>
      let existingGroups := implicatedGroups layout.id tableIds db.tableState
      let step1 : Except ApiError DB :=
        if existingGroups.isEmpty then Except.ok db
        else if db.reservations.any (fun r =>
            decide (r.layoutInstanceId = layout.id ∧ r.groupId ∈ existingGroups)) then
          Except.error ApiError.conflict
        else
          let cleared := clearGroups layout.id tableIds db.tableState
          Except.ok
            { db with
              tableState := cleared,
              tableGroups := db.tableGroups.filter (fun gr =>
                decide (¬ (gr.layoutInstanceId = layout.id ∧ gr.id ∈ existingGroups ∧
                  gr.id ∉ referencedGroupIds layout.id cleared))) }
      match step1 with
      | Except.error e => (Except.error e, db)
      | Except.ok db1 =>
        let r := finishGroup layout.id tableIds db1
        (Except.ok r.1, r.2)

/-- The POST /api/layout/:date/ungroup handler.  The groupId body field is
none when not a finite number (rejected 400).  A reservation bound to the
group in the instance conflicts; otherwise the members are cleared and
the group row of the instance is deleted. -/
def ungroupTables (date : String) (groupId : Option Int) (db : DB) : Except ApiError Unit × DB :=
  match groupId with
  | none => (Except.error ApiError.validationError, db)
  | some g =>
    match findLayout date db with
    | none => (Except.error ApiError.notFound, db)
    | some layout =>
      if db.reservations.any (fun r =>
          decide (r.layoutInstanceId = layout.id ∧ matchesId r.groupId g)) then
        (Except.error ApiError.conflict, db)
      else
        (Except.ok (),
          { db with
            tableState := db.tableState.map (fun ts =>
              if ts.layoutInstanceId = layout.id ∧ ts.groupId.map Int.ofNat = some g then
                { ts with groupId := none } else ts),
            tableGroups := db.tableGroups.filter (fun gr =>
              decide (¬ (matchesId gr.id g ∧ gr.layoutInstanceId = layout.id))) })

/-- Request body of POST /api/layout/:date/reservation. -/
structure ResBody where
  groupId : Option Int
  reservationId : Option Int
  time : Option String
  name : Option String
  partySize : Option Int
  notes : Option String
deriving Repr, DecidableEq

/-- JSON response of a successful reservation upsert (the source echoes
the request groupId, not a stored value). -/
structure ResPayload where
  id : Int
  groupId : Int
  time : String
  name : String
  partySize : Int
  notes : Option String
deriving Repr, DecidableEq

/-- The UPDATE of the reservation handler, applied per row; the WHERE
clause of the source matches on id alone. -/
def updRes (rid : Int) (t n : String) (p : Int) (nts : Option String) (now : String)
    (r : Reservation) : Reservation :=
  if matchesId r.id rid then
    { r with time := t, name := n, partySize := p, notes := nts, updatedAt := now }
  else r

/-- The POST /api/layout/:date/reservation handler.  The guard rejects a
non-finite groupId or partySize and a falsy time or name (400); then the
layout is looked up (404).  With a finite reservationId the matching
reservation of the instance is required (404) and updated in place; with
none a new reservation is inserted, whose groupId must satisfy the
foreign key into table_groups (otherwise the INSERT fails and the source
answers 500). -/
def upsertReservation (date : String) (b : ResBody) (now : String) (db : DB) :
    Except ApiError ResPayload × DB :=
  match b.groupId, b.partySize with
  | some g, some p =>
    if jsTruthy b.time = false ∨ jsTruthy b.name = false then
      (Except.error ApiError.validationError, db)
    else
      let t := b.time.getD ""
      let n := b.name.getD ""
      match findLayout date db with
      | none => (Except.error ApiError.notFound, db)
      | some layout =>
        match b.reservationId with
        | some rid =>
          match db.reservations.find? (fun r =>
              decide (matchesId r.id rid ∧ r.layoutInstanceId = layout.id)) with
          | none => (Except.error ApiError.notFound, db)
          | some _ =>
            let payload : ResPayload :=
              { id := rid, groupId := g, time := t, name := n,
                partySize := p, notes := jsNotes b.notes }
            (Except.ok payload,
              { db with reservations :=
                  db.reservations.map (updRes rid t n p (jsNotes b.notes) now) })
        | none =>
          if db.tableGroups.any (fun gr => decide (matchesId gr.id g)) then
            let rid := db.nextReservationId
            let payload : ResPayload :=
              { id := (rid : Int), groupId := g, time := t, name := n,
                partySize := p, notes := jsNotes b.notes }
            let newRow : Reservation :=
              { id := rid, layoutInstanceId := layout.id, groupId := g.toNat,
                time := t, name := n, partySize := p, notes := jsNotes b.notes,
                createdAt := now, updatedAt := now }
            (Except.ok payload,
              { db with
                reservations := db.reservations ++ [newRow],
                nextReservationId := rid + 1 })
          else (Except.error ApiError.serverError, db)
  | _, _ => (Except.error ApiError.validationError, db)

/-- Sanity check of the jsRound arithmetic: it is the mathematical
floor of q + 1/2, which is what Math.round computes on a finite input. -/
theorem jsRound_eq_floor (q : ℚ) : jsRound q = ⌊q + 1/2⌋ := by
  have hd0 : (q.den : ℚ) ≠ 0 := Nat.cast_ne_zero.mpr q.den_nz
  have hden : ((2 * q.den : ℕ) : ℚ) ≠ 0 := by
    push_cast
    simp
  have hnum : (q.num : ℚ) = q * (q.den : ℚ) := (div_eq_iff hd0).mp (Rat.num_div_den q)
  have hq : q + 1/2 = ((2 * q.num + (q.den : Int) : Int) : ℚ) / ((2 * q.den : ℕ) : ℚ) := by
    rw [eq_div_iff hden]
    push_cast
    rw [hnum]
    ring
  rw [hq, Rat.floor_intCast_div_natCast]
  unfold jsRound
  push_cast
  ring_nf

/-- Invariant I1 for one table_state row: a non-null groupId references a
table_groups row of the same layout instance. -/
def refOK (db : DB) (ts : TableState) : Prop :=
  ∀ gid, ts.groupId = some gid →
    ∃ gr ∈ db.tableGroups, gr.id = gid ∧ gr.layoutInstanceId = ts.layoutInstanceId

instance (db : DB) (ts : TableState) : Decidable (refOK db ts) :=
  match h : ts.groupId with
  | none =>
      isTrue (by
        intro gid hg
        rw [h] at hg
        cases hg)
  | some g =>
      decidable_of_iff
        (∃ gr ∈ db.tableGroups, gr.id = g ∧ gr.layoutInstanceId = ts.layoutInstanceId)
        (by
          constructor
          · intro hex gid hg
            rw [h] at hg
            cases hg
            exact hex
          · intro hall
            exact hall g h)

/-- Invariant I2 for one table_groups row: the group has at least one
member row in its layout instance. -/
def hasMember (db : DB) (gr : GroupRow) : Prop :=
  ∃ ts ∈ db.tableState,
    ts.layoutInstanceId = gr.layoutInstanceId ∧ ts.groupId = some gr.id

instance (db : DB) (gr : GroupRow) : Decidable (hasMember db gr) := by
  unfold hasMember; infer_instance

/-- Invariants I1 and I2 together: every group row has a member and every
non-null membership reference points to a group row of the same
instance. -/
def groupsWF (db : DB) : Prop :=
  (∀ gr ∈ db.tableGroups, hasMember db gr) ∧ (∀ ts ∈ db.tableState, refOK db ts)

instance (db : DB) : Decidable (groupsWF db) := by
  unfold groupsWF; infer_instance

/-- Side condition of the amended no-empty-group invariant: a group call
must name at least one table that has a table_state row in the instance
of the date (the source never checks this; a call violating it creates a
memberless group). -/
def groupCallTouchesRow (date : String) (tableIds : List Nat) (db : DB) : Prop :=
  ∀ layout, findLayout date db = some layout →
    ∃ ts ∈ db.tableState, ts.layoutInstanceId = layout.id ∧ ts.tableId ∈ tableIds

instance (date : String) (tableIds : List Nat) (db : DB) :
    Decidable (groupCallTouchesRow date tableIds db) :=
  match h : findLayout date db with
  | none =>
      isTrue (by
        intro layout hl
        rw [h] at hl
        cases hl)
  | some l0 =>
      decidable_of_iff
        (∃ ts ∈ db.tableState, ts.layoutInstanceId = l0.id ∧ ts.tableId ∈ tableIds)
        (by
          constructor
          · intro hex layout hl
            rw [h] at hl
            cases hl
            exact hex
          · intro hall
            exact hall l0 h)

/-- States reachable from a start state by successful group and ungroup
calls, each group call touching at least one existing row of its
instance. -/
inductive GUReach : DB → DB → Prop where
  | refl (db : DB) : GUReach db db
  | group (db0 db : DB) (date : String) (tableIds : List Nat) (g : Nat) (db' : DB) :
      GUReach db0 db →
      groupCallTouchesRow date tableIds db →
      groupTables date tableIds db = (Except.ok g, db') →
      GUReach db0 db'
  | ungroup (db0 db : DB) (date : String) (g : Int) (db' : DB) :
      GUReach db0 db →
      ungroupTables date (some g) db = (Except.ok (), db') →
      GUReach db0 db'

/-- Concrete three-table catalog of the README seed, used by the witness
and counterexample states below. -/
def sampleSeed : DB :=
  { tables := [{ id := 1, name := "T1", defaultX := 10, defaultY := 20,
                 width := 60, height := 40, capacity := some 4 },
               { id := 2, name := "T2", defaultX := 110, defaultY := 20,
                 width := 60, height := 40, capacity := some 2 },
               { id := 3, name := "T3", defaultX := 210, defaultY := 20,
                 width := 60, height := 40, capacity := none }],
    layoutInstances := [], tableGroups := [], tableState := [], reservations := [],
    nextLayoutId := 1, nextGroupId := 1, nextReservationId := 1 }

/-- Layout instance opened for 2024-01-01 over the sample catalog. -/
def sampleOpen : DB := (ensureLayoutInstance "2024-01-01" sampleSeed).2

/-- Sample state with tables 1 and 2 grouped as group 1. -/
def sampleGrouped : DB := (groupTables "2024-01-01" [1, 2] sampleOpen).2

/-- Sample state with a reservation (id 1) bound to group 1. -/
def sampleReserved : DB :=
  (upsertReservation "2024-01-01"
    { groupId := some 1, reservationId := none, time := some "18:30",
      name := some "Smith", partySize := some 4, notes := none } "T0" sampleGrouped).2

lemma cleared_clean (L : Nat) (tids : List Nat) (rows : List TableState) :
    ∀ ts' ∈ clearGroups L tids rows,
      ts'.layoutInstanceId = L → ts'.tableId ∈ tids → ts'.groupId = none := by
  intro ts' hts' h1 h2
  unfold clearGroups at hts'
  rw [List.mem_map] at hts'
  obtain ⟨ts, hts, hf⟩ := hts'
  by_cases hc : ts.layoutInstanceId = L ∧ ts.tableId ∈ tids
  · rw [if_pos hc] at hf
    rw [← hf]
  · rw [if_neg hc] at hf
    subst hf
    exact absurd ⟨h1, h2⟩ hc

lemma clean_of_implicated_empty (L : Nat) (tids : List Nat) (rows : List TableState)
    (h : implicatedGroups L tids rows = []) :
    ∀ ts ∈ rows, ts.layoutInstanceId = L → ts.tableId ∈ tids → ts.groupId = none := by
  intro ts hts h1 h2
  cases hg : ts.groupId with
  | none => rfl
  | some g =>
    exfalso
    have hmem : g ∈ implicatedGroups L tids rows := by
      unfold implicatedGroups
      rw [List.mem_dedup, List.mem_filterMap]
      refine ⟨ts, List.mem_filter.mpr ⟨hts, ?_⟩, hg⟩
      simp [h1, h2]
    rw [h] at hmem
    cases hmem

lemma finishGroup_wf (L : Nat) (tids : List Nat) (db1 : DB)
    (hwf : groupsWF db1)
    (hclean : ∀ ts ∈ db1.tableState,
      ts.layoutInstanceId = L → ts.tableId ∈ tids → ts.groupId = none)
    (hmem : ∃ ts ∈ db1.tableState, ts.layoutInstanceId = L ∧ ts.tableId ∈ tids) :
    groupsWF (finishGroup L tids db1).2 := by
  obtain ⟨hwf1, hwf2⟩ := hwf
  constructor
  · intro gr hgr
    simp only [finishGroup, List.mem_append, List.mem_singleton] at hgr
    unfold hasMember
    simp only [finishGroup, assignGroup, List.mem_map]
    rcases hgr with hgr | rfl
    · obtain ⟨ts, hts, htsL, htsG⟩ := hwf1 gr hgr
      have hnot : ¬(ts.layoutInstanceId = L ∧ ts.tableId ∈ tids) := by
        rintro ⟨h1, h2⟩
        have h3 := hclean ts hts h1 h2
        rw [htsG] at h3
        cases h3
      exact ⟨ts, ⟨ts, hts, by rw [if_neg hnot]⟩, htsL, htsG⟩
    · obtain ⟨ts, hts, h1, h2⟩ := hmem
      exact ⟨{ ts with groupId := some db1.nextGroupId },
        ⟨ts, hts, by rw [if_pos ⟨h1, h2⟩]⟩, h1, rfl⟩
  · intro ts' hts'
    simp only [finishGroup, assignGroup, List.mem_map] at hts'
    obtain ⟨ts, hts, hf⟩ := hts'
    intro gid0 hgid
    simp only [finishGroup, List.mem_append, List.mem_singleton]
    by_cases hc : ts.layoutInstanceId = L ∧ ts.tableId ∈ tids
    · rw [if_pos hc] at hf
      rw [← hf] at hgid ⊢
      cases hgid
      exact ⟨{ id := db1.nextGroupId, layoutInstanceId := L }, Or.inr rfl, rfl, hc.1.symm⟩
    · rw [if_neg hc] at hf
      subst hf
      obtain ⟨gr, hgr, hgrid, hgrL⟩ := hwf2 ts hts gid0 hgid
      exact ⟨gr, Or.inl hgr, hgrid, hgrL⟩

lemma cleanup_wf (L : Nat) (tids : List Nat) (db : DB) (hwf : groupsWF db) :
    groupsWF { db with
      tableState := clearGroups L tids db.tableState,
      tableGroups := db.tableGroups.filter (fun gr =>
        decide (¬ (gr.layoutInstanceId = L ∧ gr.id ∈ implicatedGroups L tids db.tableState ∧
          gr.id ∉ referencedGroupIds L (clearGroups L tids db.tableState)))) } := by
  obtain ⟨hwf1, hwf2⟩ := hwf
  constructor
  · intro gr hgr
    rw [List.mem_filter, decide_eq_true_eq] at hgr
    obtain ⟨hgr1, hnot⟩ := hgr
    unfold hasMember
    by_cases hA : gr.layoutInstanceId = L
    · by_cases hC : gr.id ∈ referencedGroupIds L (clearGroups L tids db.tableState)
      · unfold referencedGroupIds at hC
        rw [List.mem_filterMap] at hC
        obtain ⟨ts1, hts1, hg1⟩ := hC
        rw [List.mem_filter, decide_eq_true_eq] at hts1
        exact ⟨ts1, hts1.1, by rw [hts1.2, hA], hg1⟩
      · have hB : gr.id ∉ implicatedGroups L tids db.tableState := by
          intro hB
          exact hnot ⟨hA, hB, hC⟩
        obtain ⟨ts, hts, htsL, htsG⟩ := hwf1 gr hgr1
        have hnt : ts.tableId ∉ tids := by
          intro h2
          apply hB
          unfold implicatedGroups
          rw [List.mem_dedup, List.mem_filterMap]
          refine ⟨ts, List.mem_filter.mpr ⟨hts, ?_⟩, htsG⟩
          simp [htsL, hA, h2]
        have hnc : ¬(ts.layoutInstanceId = L ∧ ts.tableId ∈ tids) := by
          rintro ⟨-, h2⟩
          exact hnt h2
        refine ⟨ts, ?_, htsL, htsG⟩
        unfold clearGroups
        rw [List.mem_map]
        exact ⟨ts, hts, by rw [if_neg hnc]⟩
    · obtain ⟨ts, hts, htsL, htsG⟩ := hwf1 gr hgr1
      have hnc : ¬(ts.layoutInstanceId = L ∧ ts.tableId ∈ tids) := by
        rintro ⟨h1, -⟩
        exact hA (htsL ▸ h1)
      refine ⟨ts, ?_, htsL, htsG⟩
      unfold clearGroups
      rw [List.mem_map]
      exact ⟨ts, hts, by rw [if_neg hnc]⟩
  · intro ts' hts'
    simp only [clearGroups, List.mem_map] at hts'
    obtain ⟨ts, hts, hf⟩ := hts'
    by_cases hc : ts.layoutInstanceId = L ∧ ts.tableId ∈ tids
    · rw [if_pos hc] at hf
      subst hf
      intro gid0 hgid
      cases hgid
    · rw [if_neg hc] at hf
      subst hf
      intro gid0 hgid
      obtain ⟨gr, hgr, hgrid, hgrL⟩ := hwf2 ts hts gid0 hgid
      refine ⟨gr, ?_, hgrid, hgrL⟩
      rw [List.mem_filter, decide_eq_true_eq]
      refine ⟨hgr, ?_⟩
      rintro ⟨hA, hB, hC⟩
      apply hC
      unfold referencedGroupIds
      rw [List.mem_filterMap]
      refine ⟨ts, ?_, by rw [hgid, hgrid]⟩
      rw [List.mem_filter, decide_eq_true_eq]
      refine ⟨?_, by rw [← hgrL, hA]⟩
      unfold clearGroups
      rw [List.mem_map]
      exact ⟨ts, hts, by rw [if_neg hc]⟩

lemma clearGroups_keeps_loc (L : Nat) (tids : List Nat) (rows : List TableState) :
    ∀ ts ∈ rows, ∃ ts' ∈ clearGroups L tids rows,
      ts'.layoutInstanceId = ts.layoutInstanceId ∧ ts'.tableId = ts.tableId := by
  intro ts hts
  unfold clearGroups
  by_cases hc : ts.layoutInstanceId = L ∧ ts.tableId ∈ tids
  · refine ⟨{ ts with groupId := none }, ?_, rfl, rfl⟩
    rw [List.mem_map]
    exact ⟨ts, hts, by rw [if_pos hc]⟩
  · refine ⟨ts, ?_, rfl, rfl⟩
    rw [List.mem_map]
    exact ⟨ts, hts, by rw [if_neg hc]⟩

lemma groupTables_wf (date : String) (tids : List Nat) (db : DB) (g : Nat) (db' : DB)
    (hwf : groupsWF db) (hside : groupCallTouchesRow date tids db)
    (h : groupTables date tids db = (Except.ok g, db')) : groupsWF db' := by
  simp only [groupTables] at h
  by_cases hti : tids.isEmpty = true
  · rw [if_pos hti] at h
    exact absurd h (by simp)
  · rw [if_neg hti] at h
    cases hfind : findLayout date db with
    | none =>
      rw [hfind] at h
      exact absurd h (by simp)
    | some layout =>
      rw [hfind] at h
      dsimp only at h
      obtain ⟨ts0, hts0, h01, h02⟩ := hside layout hfind
      by_cases hEG : (implicatedGroups layout.id tids db.tableState).isEmpty = true
      · rw [if_pos hEG] at h
        dsimp only at h
        simp only [Prod.mk.injEq] at h
        rw [← h.2]
        exact finishGroup_wf layout.id tids db hwf
          (clean_of_implicated_empty layout.id tids db.tableState (List.isEmpty_iff.mp hEG))
          ⟨ts0, hts0, h01, h02⟩
      · rw [if_neg hEG] at h
        by_cases hany : (db.reservations.any (fun r =>
            decide (r.layoutInstanceId = layout.id ∧
              r.groupId ∈ implicatedGroups layout.id tids db.tableState))) = true
        · rw [if_pos hany] at h
          dsimp only at h
          exact absurd h (by simp)
        · rw [if_neg hany] at h
          dsimp only at h
          simp only [Prod.mk.injEq] at h
          rw [← h.2]
          obtain ⟨ts1, hts1, h11, h12⟩ := clearGroups_keeps_loc layout.id tids db.tableState ts0 hts0
          exact finishGroup_wf layout.id tids
            { db with
              tableState := clearGroups layout.id tids db.tableState,
              tableGroups := db.tableGroups.filter (fun gr =>
                decide (¬ (gr.layoutInstanceId = layout.id ∧
                  gr.id ∈ implicatedGroups layout.id tids db.tableState ∧
                  gr.id ∉ referencedGroupIds layout.id
                    (clearGroups layout.id tids db.tableState)))) }
            (cleanup_wf layout.id tids db hwf)
            (cleared_clean layout.id tids db.tableState)
            ⟨ts1, hts1, by rw [h11, h01], by rw [h12]; exact h02⟩

lemma ungroupTables_wf (date : String) (g : Int) (db db' : DB)
    (hwf : groupsWF db) (h : ungroupTables date (some g) db = (Except.ok (), db')) :
    groupsWF db' := by
  simp only [ungroupTables] at h
  cases hfind : findLayout date db with
  | none =>
    rw [hfind] at h
    exact absurd h (by simp)
  | some layout =>
    rw [hfind] at h
    dsimp only at h
    by_cases hany : (db.reservations.any (fun r =>
        decide (r.layoutInstanceId = layout.id ∧ matchesId r.groupId g))) = true
    · rw [if_pos hany] at h
      exact absurd h (by simp)
    · rw [if_neg hany] at h
      simp only [Prod.mk.injEq] at h
      rw [← h.2]
      obtain ⟨hwf1, hwf2⟩ := hwf
      constructor
      · intro gr hgr
        rw [List.mem_filter, decide_eq_true_eq] at hgr
        obtain ⟨hgr1, hnot⟩ := hgr
        obtain ⟨ts, hts, htsL, htsG⟩ := hwf1 gr hgr1
        have hnc : ¬(ts.layoutInstanceId = layout.id ∧
            ts.groupId.map Int.ofNat = some g) := by
          rintro ⟨h1, h2⟩
          rw [htsG] at h2
          simp only [Option.map_some', Option.some.injEq] at h2
          refine hnot ⟨h2, ?_⟩
          rw [← htsL]
          exact h1
        refine ⟨ts, ?_, htsL, htsG⟩
        rw [List.mem_map]
        exact ⟨ts, hts, by rw [if_neg hnc]⟩
      · intro ts' hts'
        simp only [List.mem_map] at hts'
        obtain ⟨ts, hts, hf⟩ := hts'
        by_cases hc : ts.layoutInstanceId = layout.id ∧
            ts.groupId.map Int.ofNat = some g
        · rw [if_pos hc] at hf
          subst hf
          intro gid0 hgid
          cases hgid
        · rw [if_neg hc] at hf
          subst hf
          intro gid0 hgid
          obtain ⟨gr, hgr, hgrid, hgrL⟩ := hwf2 ts hts gid0 hgid
          refine ⟨gr, ?_, hgrid, hgrL⟩
          rw [List.mem_filter, decide_eq_true_eq]
          refine ⟨hgr, ?_⟩
          rintro ⟨hm, hLa⟩
          apply hc
          constructor
          · rw [← hgrL]
            exact hLa
          · rw [hgid]
            simp only [Option.map_some', Option.some.injEq]
            rw [← hgrid]
            exact hm

lemma GUReach_wf (db0 db : DB) (h0 : groupsWF db0) (h : GUReach db0 db) : groupsWF db := by
  induction h with
  | refl => exact h0
  | group dbB date tids g db' hreach hside hstep ih =>
      exact groupTables_wf date tids dbB g db' ih hside hstep
  | ungroup dbB date g db' hreach hstep ih =>
      exact ungroupTables_wf date g dbB db' ih hstep

lemma ensure_existing (date : String) (db2 : DB) (row : LayoutInstance)
    (h : findLayout date db2 = some row) :
    ensureLayoutInstance date db2 = ((row.id, true), db2) := by
  simp only [ensureLayoutInstance, h]

/-- C1: in every state where group G of the instance of the date has a
bound reservation, a group call whose tableIds contain a member of G and
an ungroup call on G both answer Conflict, and the database is returned
unchanged in both cases (the source checks the reservation before issuing
any UPDATE or DELETE, so no partial mutation occurs). -/
theorem reserved_group_blocks_regroup_and_ungroup
    (date : String) (tableIds : List Nat) (db : DB) (layout : LayoutInstance)
    (G : Nat) (r : Reservation) (ts : TableState)
    (hL : findLayout date db = some layout)
    (hr : r ∈ db.reservations) (hrL : r.layoutInstanceId = layout.id) (hrG : r.groupId = G)
    (hts : ts ∈ db.tableState) (htsL : ts.layoutInstanceId = layout.id)
    (htsG : ts.groupId = some G) (htsT : ts.tableId ∈ tableIds) :
    groupTables date tableIds db = (Except.error ApiError.conflict, db) ∧
    ungroupTables date (some (G : Int)) db = (Except.error ApiError.conflict, db) := by
  have hG : G ∈ implicatedGroups layout.id tableIds db.tableState := by
    unfold implicatedGroups
    rw [List.mem_dedup, List.mem_filterMap]
    refine ⟨ts, List.mem_filter.mpr ⟨hts, ?_⟩, htsG⟩
    simp [htsL, htsT]
  have hne : tableIds.isEmpty = false := by
    cases tableIds with
    | nil => cases htsT
    | cons a l => rfl
  have hgne : (implicatedGroups layout.id tableIds db.tableState).isEmpty = false := by
    cases h : (implicatedGroups layout.id tableIds db.tableState).isEmpty with
    | false => rfl
    | true => exact absurd (List.isEmpty_iff.mp h ▸ hG) (List.not_mem_nil G)
  have hany : (db.reservations.any (fun rr =>
      decide (rr.layoutInstanceId = layout.id ∧
        rr.groupId ∈ implicatedGroups layout.id tableIds db.tableState))) = true := by
    rw [List.any_eq_true]
    exact ⟨r, hr, by simp [hrL, hrG ▸ hG]⟩
  constructor
  · unfold groupTables
    rw [hne, hL]
    simp only [Bool.false_eq_true, if_false, hgne, hany, if_true]
  · unfold ungroupTables
    rw [hL]
    simp
    exact ⟨r, hr, hrL, by simp [matchesId, hrG]⟩

/-- Witness for C1 at the sample state: group 1 of 2024-01-01 holds the
Smith reservation, so regrouping [1, 3] and ungrouping group 1 both
conflict and leave the state unchanged. -/
theorem reserved_group_blocks_regroup_and_ungroup_witness :
    groupTables "2024-01-01" [1, 3] sampleReserved =
      (Except.error ApiError.conflict, sampleReserved) ∧
    ungroupTables "2024-01-01" (some ((1 : Nat) : Int)) sampleReserved =
      (Except.error ApiError.conflict, sampleReserved) :=
  reserved_group_blocks_regroup_and_ungroup "2024-01-01" [1, 3] sampleReserved
    { id := 1, date := "2024-01-01" } 1
    { id := 1, layoutInstanceId := 1, groupId := 1, time := "18:30", name := "Smith",
      partySize := 4, notes := none, createdAt := "T0", updatedAt := "T0" }
    { layoutInstanceId := 1, tableId := 1, x := 10, y := 20, groupId := some 1 }
    (by decide) (by decide) (by decide) (by decide) (by decide) (by decide)
    (by decide) (by decide)

/-- Counterexample to C2 as stated: the group endpoint never checks that
the requested tableIds exist, so from a freshly instantiated layout a
single group call naming only the unknown table id 99 succeeds (the source
answers with the fresh groupId 1) and leaves a table_groups row with no
member table_state row. -/
theorem group_with_unknown_tables_leaves_empty_group :
    (groupTables "2024-01-01" [99] sampleOpen).1 = Except.ok 1 ∧
    ((groupTables "2024-01-01" [99] sampleOpen).2).tableGroups =
      [{ id := 1, layoutInstanceId := 1 }] ∧
    ¬ hasMember (groupTables "2024-01-01" [99] sampleOpen).2
      { id := 1, layoutInstanceId := 1 } := by
  refine ⟨by decide, by decide, by decide⟩

/-- C2 as amended: for every sequence of successful group and ungroup
calls from a state satisfying the grouping invariants (a freshly
instantiated layout does), in which every group call names at least one
table that has a table_state row in its instance, every surviving
table_groups row keeps at least one member after each call.  The
amendment adds the side condition on group calls, which the
counterexample above shows is necessary. -/
theorem no_empty_groups_of_reachable (db0 db : DB)
    (h0 : groupsWF db0) (h : GUReach db0 db) :
    ∀ gr ∈ db.tableGroups, hasMember db gr :=
  (GUReach_wf db0 db h0 h).1

/-- Witness for C2 at the sample states: the fresh instance satisfies the
invariants, and after the group call building group 1 from tables 1 and 2
every group of the resulting state has a member. -/
theorem no_empty_groups_of_reachable_witness :
    groupsWF sampleOpen ∧
    ∀ gr ∈ sampleGrouped.tableGroups, hasMember sampleGrouped gr :=
  ⟨by decide,
    no_empty_groups_of_reachable sampleOpen sampleGrouped (by decide)
      (GUReach.group sampleOpen sampleOpen "2024-01-01" [1, 2] 1 sampleGrouped
        (GUReach.refl sampleOpen) (by decide) (by decide))⟩

/-- Counterexample to C3 as stated: with partySize 0 (not a positive
integer) and the malformed time string 99x, the reservation endpoint does
not answer ValidationError; it inserts the reservation and echoes it back
(the guard only checks Number.isFinite and truthiness, never positivity,
HH:MM shape, or that the group belongs to the instance). -/
theorem invalid_reservation_fields_still_written :
    (upsertReservation "2024-01-01"
        { groupId := some 1, reservationId := none, time := some "99x",
          name := some "Smith", partySize := some 0, notes := none } "T0" sampleGrouped).1
      = Except.ok
          { id := 1, groupId := 1, time := "99x", name := "Smith",
            partySize := 0, notes := none } ∧
    ((upsertReservation "2024-01-01"
        { groupId := some 1, reservationId := none, time := some "99x",
          name := some "Smith", partySize := some 0, notes := none } "T0" sampleGrouped).2).reservations
      = [{ id := 1, layoutInstanceId := 1, groupId := 1, time := "99x", name := "Smith",
           partySize := 0, notes := none, createdAt := "T0", updatedAt := "T0" }] := by
  refine ⟨by decide, by decide⟩

/-- C3 as amended: the reservation endpoint answers ValidationError
exactly when groupId is not a finite number, partySize is not a finite
number, or time or name is falsy; and whenever the guard fires the
database is returned unchanged.  No positivity, HH:MM, or
group-in-instance validation is performed: inputs failing only the
positivity or time-format conditions are written (the counterexample
above), while a create whose finite groupId matches no table_groups row
passes the guard but is rejected by the foreign key of the INSERT — the
source answers a caught 500, not ValidationError — and nothing is
written (third conjunct). -/
theorem upsertReservation_validation_characterization
    (date : String) (b : ResBody) (now : String) (db : DB) :
    ((upsertReservation date b now db).1 = Except.error ApiError.validationError ↔
      (b.groupId = none ∨ b.partySize = none ∨
        jsTruthy b.time = false ∨ jsTruthy b.name = false)) ∧
    ((b.groupId = none ∨ b.partySize = none ∨
        jsTruthy b.time = false ∨ jsTruthy b.name = false) →
      (upsertReservation date b now db).2 = db) ∧
    (∀ g p, b.groupId = some g → b.partySize = some p →
      b.reservationId = none →
      jsTruthy b.time = true → jsTruthy b.name = true →
      ∀ layout, findLayout date db = some layout →
      (db.tableGroups.any (fun gr => decide (matchesId gr.id g))) = false →
      upsertReservation date b now db = (Except.error ApiError.serverError, db)) := by
  refine ⟨?_, ?_, ?_⟩
  · unfold upsertReservation
    cases hg : b.groupId with
    | none => simp
    | some g =>
      cases hp : b.partySize with
      | none => simp
      | some p =>
        dsimp only
        by_cases ht : jsTruthy b.time = false ∨ jsTruthy b.name = false
        · rw [if_pos ht]
          simp [ht]
        · rw [if_neg ht]
          have hnotR : ¬(some g = none ∨ some p = none ∨
              jsTruthy b.time = false ∨ jsTruthy b.name = false) := by
            push_neg
            push_neg at ht
            exact ⟨Option.some_ne_none g, Option.some_ne_none p, ht.1, ht.2⟩
          refine iff_of_false ?_ hnotR
          cases hfind : findLayout date db with
          | none => simp
          | some layout =>
            dsimp only
            cases hrid : b.reservationId with
            | some rid =>
              cases hfr : List.find? (fun r =>
                  decide (matchesId r.id rid) && decide (r.layoutInstanceId = layout.id))
                  db.reservations with
              | none => simp [hfr]
              | some r1 => simp [hfr]
            | none =>
              by_cases hfk : (db.tableGroups.any (fun gr => decide (matchesId gr.id g))) = true
              · rw [if_pos hfk]
                simp
              · rw [if_neg hfk]
                simp
  · intro hbad
    unfold upsertReservation
    cases hg : b.groupId with
    | none => rfl
    | some g =>
      cases hp : b.partySize with
      | none => rfl
      | some p =>
        dsimp only
        have ht : jsTruthy b.time = false ∨ jsTruthy b.name = false := by
          rcases hbad with h | h | h | h
          · rw [hg] at h
            cases h
          · rw [hp] at h
            cases h
          · exact Or.inl h
          · exact Or.inr h
        rw [if_pos ht]
  · intro g p hg hp hrid htt hnt layout hlay hfk
    unfold upsertReservation
    rw [hg, hp]
    dsimp only
    rw [if_neg (by simp [htt, hnt])]
    rw [hlay]
    dsimp only
    rw [hrid]
    dsimp only
    rw [if_neg (by rw [hfk]; exact Bool.false_ne_true)]

/-- Witness for C3 at a concrete input: a request with groupId absent is
answered ValidationError and the state is unchanged; a create request
with the finite groupId 999, which references no group, passes the guard
but is answered serverError (the caught foreign-key failure) with the
state unchanged. -/
theorem upsertReservation_validation_characterization_witness :
    (upsertReservation "2024-01-01"
        { groupId := none, reservationId := none, time := some "18:30",
          name := some "Smith", partySize := some 4, notes := none } "T0" sampleGrouped).1
      = Except.error ApiError.validationError ∧
    (upsertReservation "2024-01-01"
        { groupId := none, reservationId := none, time := some "18:30",
          name := some "Smith", partySize := some 4, notes := none } "T0" sampleGrouped).2
      = sampleGrouped ∧
    upsertReservation "2024-01-01"
        { groupId := some 999, reservationId := none, time := some "18:30",
          name := some "Smith", partySize := some 4, notes := none } "T0" sampleGrouped
      = (Except.error ApiError.serverError, sampleGrouped) :=
  ⟨(upsertReservation_validation_characterization "2024-01-01"
      { groupId := none, reservationId := none, time := some "18:30",
        name := some "Smith", partySize := some 4, notes := none } "T0" sampleGrouped).1.mpr
      (Or.inl rfl),
   (upsertReservation_validation_characterization "2024-01-01"
      { groupId := none, reservationId := none, time := some "18:30",
        name := some "Smith", partySize := some 4, notes := none } "T0" sampleGrouped).2.1
      (Or.inl rfl),
   (upsertReservation_validation_characterization "2024-01-01"
      { groupId := some 999, reservationId := none, time := some "18:30",
        name := some "Smith", partySize := some 4, notes := none } "T0" sampleGrouped).2.2
      999 4 rfl rfl rfl (by decide) (by decide)
      { id := 1, date := "2024-01-01" } (by decide) (by decide)⟩

/-- C4: grouping a nonempty subset of the members of an existing group G
that carries no reservation succeeds and returns the next AUTOINCREMENT
group id, which differs from G and from every group id present before the
call.  The primary-key and id-freshness hypotheses restate schema
guarantees (one table_state row per (instance, table) pair; AUTOINCREMENT
ids below the counter). -/
theorem regroup_subset_returns_fresh_groupId
    (date : String) (tids : List Nat) (db : DB) (layout : LayoutInstance) (G : Nat)
    (hL : findLayout date db = some layout)
    (hne : tids ≠ [])
    (hPK : ∀ a ∈ db.tableState, ∀ b ∈ db.tableState,
      a.layoutInstanceId = b.layoutInstanceId → a.tableId = b.tableId → a = b)
    (hsub : ∀ t ∈ tids, ∃ ts ∈ db.tableState,
      ts.layoutInstanceId = layout.id ∧ ts.tableId = t ∧ ts.groupId = some G)
    (hGmem : ∃ gr ∈ db.tableGroups, gr.id = G)
    (hnores : ∀ r ∈ db.reservations, r.layoutInstanceId = layout.id → r.groupId ≠ G)
    (hfresh : ∀ gr ∈ db.tableGroups, gr.id < db.nextGroupId) :
    (groupTables date tids db).1 = Except.ok db.nextGroupId ∧
    db.nextGroupId ≠ G ∧
    ∀ gr ∈ db.tableGroups, gr.id ≠ db.nextGroupId := by
  have hEGsub : ∀ x ∈ implicatedGroups layout.id tids db.tableState, x = G := by
    intro x hx
    unfold implicatedGroups at hx
    rw [List.mem_dedup, List.mem_filterMap] at hx
    obtain ⟨row, hrow, hrowg⟩ := hx
    rw [List.mem_filter, decide_eq_true_eq] at hrow
    obtain ⟨hrow1, hrowL, hrowT⟩ := hrow
    obtain ⟨row2, hrow21, h1, h2, h3⟩ := hsub row.tableId hrowT
    have heq : row = row2 := hPK row hrow1 row2 hrow21 (by rw [hrowL, h1]) h2.symm
    rw [heq, h3] at hrowg
    rw [Option.some.injEq] at hrowg
    exact hrowg.symm
  obtain ⟨t0, ht0⟩ := List.exists_mem_of_ne_nil tids hne
  obtain ⟨ts0, hts0, hts0L, hts0T, hts0G⟩ := hsub t0 ht0
  have hEGmem : G ∈ implicatedGroups layout.id tids db.tableState := by
    unfold implicatedGroups
    rw [List.mem_dedup, List.mem_filterMap]
    refine ⟨ts0, List.mem_filter.mpr ⟨hts0, ?_⟩, hts0G⟩
    rw [decide_eq_true_eq]
    exact ⟨hts0L, by rw [hts0T]; exact ht0⟩
  have hEGne : (implicatedGroups layout.id tids db.tableState).isEmpty = false := by
    cases h : (implicatedGroups layout.id tids db.tableState).isEmpty with
    | false => rfl
    | true => exact absurd (List.isEmpty_iff.mp h ▸ hEGmem) (List.not_mem_nil G)
  have hanyf : (db.reservations.any (fun r =>
      decide (r.layoutInstanceId = layout.id ∧
        r.groupId ∈ implicatedGroups layout.id tids db.tableState))) = false := by
    cases h : (db.reservations.any (fun r =>
        decide (r.layoutInstanceId = layout.id ∧
          r.groupId ∈ implicatedGroups layout.id tids db.tableState))) with
    | false => rfl
    | true =>
      rw [List.any_eq_true] at h
      obtain ⟨r, hr, hrP⟩ := h
      rw [decide_eq_true_eq] at hrP
      exact absurd (hEGsub r.groupId hrP.2) (hnores r hr hrP.1)
  refine ⟨?_, ?_, ?_⟩
  · simp only [groupTables]
    have hti : ¬ (tids.isEmpty = true) := by
      cases tids with
      | nil => exact absurd rfl hne
      | cons a l => simp
    rw [if_neg hti, hL]
    dsimp only
    rw [if_neg (by rw [hEGne]; exact Bool.false_ne_true),
      if_neg (by rw [hanyf]; exact Bool.false_ne_true)]
    dsimp only [finishGroup]
  · obtain ⟨grG, hgrG, hgrGid⟩ := hGmem
    have := hfresh grG hgrG
    omega
  · intro gr hgr
    have := hfresh gr hgr
    omega

/-- Witness for C4 at the sample state: regrouping [1], a subset of the
members of the unreserved group 1, answers the fresh group id 2, distinct
from 1. -/
theorem regroup_subset_returns_fresh_groupId_witness :
    (groupTables "2024-01-01" [1] sampleGrouped).1 = Except.ok 2 ∧
    (2 : Nat) ≠ 1 ∧
    ∀ gr ∈ sampleGrouped.tableGroups, gr.id ≠ 2 :=
  regroup_subset_returns_fresh_groupId "2024-01-01" [1] sampleGrouped
    { id := 1, date := "2024-01-01" } 1
    (by decide) (by decide) (by decide) (by decide) (by decide) (by decide) (by decide)

/-- C5: opening a date twice is idempotent.  With no instance stored for
the date and the next instance id unused by any table_state row (the
AUTOINCREMENT guarantee), the first call creates and answers
(nextLayoutId, existed = false), the second call answers the same id with
existed = true and changes nothing, and the rows of the new instance are
exactly one per catalog table at the default position with no group. -/
theorem ensureInstance_idempotent (date : String) (db : DB)
    (hno : findLayout date db = none)
    (hfresh : ∀ ts ∈ db.tableState, ts.layoutInstanceId ≠ db.nextLayoutId) :
    (ensureLayoutInstance date db).1 = (db.nextLayoutId, false) ∧
    (ensureLayoutInstance date (ensureLayoutInstance date db).2).1 = (db.nextLayoutId, true) ∧
    (ensureLayoutInstance date (ensureLayoutInstance date db).2).2 = (ensureLayoutInstance date db).2 ∧
    ((ensureLayoutInstance date db).2).tableState.filter
        (fun ts => decide (ts.layoutInstanceId = db.nextLayoutId))
      = db.tables.map (fun t =>
          ({ layoutInstanceId := db.nextLayoutId, tableId := t.id,
             x := t.defaultX, y := t.defaultY, groupId := none } : TableState)) := by
  have hstep1 : ensureLayoutInstance date db =
      ((db.nextLayoutId, false),
        { db with
          layoutInstances := db.layoutInstances ++ [{ id := db.nextLayoutId, date := date }],
          tableState := db.tableState ++ db.tables.map (fun t =>
            { layoutInstanceId := db.nextLayoutId, tableId := t.id,
              x := t.defaultX, y := t.defaultY, groupId := none }),
          nextLayoutId := db.nextLayoutId + 1 }) := by
    simp only [ensureLayoutInstance, hno]
  have hfind2 : findLayout date (ensureLayoutInstance date db).2 =
      some { id := db.nextLayoutId, date := date } := by
    rw [hstep1]
    unfold findLayout
    dsimp only
    rw [List.find?_append]
    unfold findLayout at hno
    rw [hno]
    simp
  have hsecond := ensure_existing date (ensureLayoutInstance date db).2
    { id := db.nextLayoutId, date := date } hfind2
  refine ⟨by rw [hstep1], by rw [hsecond], by rw [hsecond], ?_⟩
  rw [hstep1]
  dsimp only
  rw [List.filter_append]
  have hold : db.tableState.filter
      (fun ts => decide (ts.layoutInstanceId = db.nextLayoutId)) = [] := by
    rw [List.filter_eq_nil_iff]
    intro ts hts
    rw [decide_eq_true_eq]
    exact hfresh ts hts
  have hnew : (db.tables.map (fun t =>
      ({ layoutInstanceId := db.nextLayoutId, tableId := t.id,
         x := t.defaultX, y := t.defaultY, groupId := none } : TableState))).filter
      (fun ts => decide (ts.layoutInstanceId = db.nextLayoutId))
    = db.tables.map (fun t =>
        ({ layoutInstanceId := db.nextLayoutId, tableId := t.id,
           x := t.defaultX, y := t.defaultY, groupId := none } : TableState)) := by
    rw [List.filter_eq_self]
    intro ts hts
    rw [List.mem_map] at hts
    obtain ⟨t, ht, hf⟩ := hts
    rw [decide_eq_true_eq, ← hf]
  rw [hold, hnew]
  simp

/-- Witness for C5 at the sample catalog: opening 2024-01-01 twice gives
instance 1 with existed false then true, and seeds exactly the three
catalog tables at their default positions. -/
theorem ensureInstance_idempotent_witness :
    (ensureLayoutInstance "2024-01-01" sampleSeed).1 = (1, false) ∧
    (ensureLayoutInstance "2024-01-01" (ensureLayoutInstance "2024-01-01" sampleSeed).2).1 = (1, true) ∧
    (ensureLayoutInstance "2024-01-01" (ensureLayoutInstance "2024-01-01" sampleSeed).2).2 = (ensureLayoutInstance "2024-01-01" sampleSeed).2 ∧
    ((ensureLayoutInstance "2024-01-01" sampleSeed).2).tableState.filter
        (fun ts => decide (ts.layoutInstanceId = 1))
      = sampleSeed.tables.map (fun t =>
          ({ layoutInstanceId := 1, tableId := t.id,
             x := t.defaultX, y := t.defaultY, groupId := none } : TableState)) :=
  ensureInstance_idempotent "2024-01-01" sampleSeed (by decide) (by decide)

/-- Counterexample to C6 as stated: the endpoint applies Math.round but
never clamps negative coordinates to zero.  Writing x = -5 (and y = 7/2)
stores x = -5, which the snapshot reflects; the claimed clamped value 0
is not what is stored. -/
theorem negative_coordinate_not_clamped :
    (updatePosition "2024-01-01" 1 (some (-5)) (some (mkRat 7 2))
        GroupIdField.absent sampleOpen).1 = Except.ok () ∧
    ((fetchLayoutPayload 1 (updatePosition "2024-01-01" 1 (some (-5)) (some (mkRat 7 2))
        GroupIdField.absent sampleOpen).2).tables).map (fun pt => (pt.tableId, pt.x, pt.y))
      = [(1, -5, 4), (2, 110, 20), (3, 210, 20)] ∧
    (-5 : Int) ≠ 0 := by
  refine ⟨by decide, by decide, by decide⟩

/-- C6 as amended: updating both coordinates of an existing table and
reading the snapshot back yields exactly the written values, each rounded
with floor (v + 1/2) as Math.round does; negative results are stored as
they are, with no clamping to zero. -/
theorem updatePosition_roundtrip_rounded_unclamped
    (date : String) (t : Nat) (qx qy : ℚ) (db : DB) (layout : LayoutInstance)
    (ts : TableState) (ct : CatalogTable)
    (hL : findLayout date db = some layout)
    (hts : ts ∈ db.tableState) (htsL : ts.layoutInstanceId = layout.id) (htsT : ts.tableId = t)
    (hcat : db.tables.find? (fun c => decide (c.id = t)) = some ct) :
    (updatePosition date t (some qx) (some qy) GroupIdField.absent db).1 = Except.ok () ∧
    ∃ pt ∈ (fetchLayoutPayload layout.id
        (updatePosition date t (some qx) (some qy) GroupIdField.absent db).2).tables,
      pt.tableId = t ∧ pt.x = jsRound qx ∧ pt.y = jsRound qy := by
  have hstep : updatePosition date t (some qx) (some qy) GroupIdField.absent db =
      (Except.ok (),
        { db with
          tableState := posUpdatedRows layout.id t (some qx) (some qy)
            GroupIdField.absent db.tableState }) := by
    simp only [updatePosition, hL]
    rw [if_neg (by simp)]
    rw [if_pos trivial]
  refine ⟨by rw [hstep], ?_⟩
  rw [hstep]
  unfold fetchLayoutPayload
  dsimp only
  refine
    ⟨{ tableId := t, x := jsRound qx, y := jsRound qy, groupId := ts.groupId,
       name := ct.name, width := ct.width, height := ct.height, capacity := ct.capacity },
     ?_, rfl, rfl, rfl⟩
  rw [List.mem_filterMap]
  refine ⟨applyUpd (some qx) (some qy) GroupIdField.absent ts, ?_, ?_⟩
  · rw [List.mem_filter]
    constructor
    · unfold posUpdatedRows
      rw [List.mem_map]
      exact ⟨ts, hts, by rw [if_pos ⟨htsL, htsT⟩]⟩
    · rw [decide_eq_true_eq]
      simp [applyUpd, htsL]
  · simp [applyUpd, htsT, hcat]

/-- Witness for C6 at the sample state: writing x = -5 and y = 7/2 to
table 1 succeeds and the snapshot holds the rounded, unclamped values. -/
theorem updatePosition_roundtrip_rounded_unclamped_witness :
    (updatePosition "2024-01-01" 1 (some (-5)) (some (mkRat 7 2))
        GroupIdField.absent sampleOpen).1 = Except.ok () ∧
    ∃ pt ∈ (fetchLayoutPayload 1
        (updatePosition "2024-01-01" 1 (some (-5)) (some (mkRat 7 2))
          GroupIdField.absent sampleOpen).2).tables,
      pt.tableId = 1 ∧ pt.x = jsRound (-5) ∧ pt.y = jsRound (mkRat 7 2) :=
  updatePosition_roundtrip_rounded_unclamped "2024-01-01" 1 (-5) (mkRat 7 2) sampleOpen
    { id := 1, date := "2024-01-01" }
    { layoutInstanceId := 1, tableId := 1, x := 10, y := 20, groupId := none }
    { id := 1, name := "T1", defaultX := 10, defaultY := 20,
      width := 60, height := 40, capacity := some 4 }
    (by decide) (by decide) (by decide) (by decide) (by decide)

/-- Counterexample to C7 as stated: with the layout of the date present
but no table_state row for table id 99, an update carrying a valid x is
answered ok with the state unchanged, not NotFound. -/
theorem updatePosition_unknown_table_returns_ok :
    updatePosition "2024-01-01" 99 (some 3) none GroupIdField.absent sampleOpen
      = (Except.ok (), sampleOpen) ∧
    (Except.ok () : Except ApiError Unit) ≠ Except.error ApiError.notFound := by
  refine ⟨by decide, by decide⟩

/-- C7 as amended: when the date has a layout but tableId matches no
table_state row of the instance, the endpoint does not answer NotFound;
the UPDATE matches zero rows, the state is returned unchanged, and the
response is ok, for any combination of update fields that passes the
no-fields guard.  NotFound is answered only for an unknown date. -/
theorem updatePosition_unknown_table_noop_ok
    (date : String) (t : Nat) (x y : Option ℚ) (gid : GroupIdField)
    (db : DB) (layout : LayoutInstance)
    (hL : findLayout date db = some layout)
    (hnorow : ∀ ts ∈ db.tableState, ¬(ts.layoutInstanceId = layout.id ∧ ts.tableId = t))
    (hfields : ¬(x = none ∧ y = none ∧ gid = GroupIdField.absent)) :
    updatePosition date t x y gid db = (Except.ok (), db) := by
  have hrt : (db.tableState.any (fun ts =>
      decide (ts.layoutInstanceId = layout.id ∧ ts.tableId = t))) = false := by
    cases h : (db.tableState.any (fun ts =>
        decide (ts.layoutInstanceId = layout.id ∧ ts.tableId = t))) with
    | false => rfl
    | true =>
      rw [List.any_eq_true] at h
      obtain ⟨ts, hts, hp⟩ := h
      rw [decide_eq_true_eq] at hp
      exact absurd hp (hnorow ts hts)
  have hmap : posUpdatedRows layout.id t x y gid db.tableState = db.tableState := by
    unfold posUpdatedRows
    have hcong : ∀ ts ∈ db.tableState,
        (if ts.layoutInstanceId = layout.id ∧ ts.tableId = t then applyUpd x y gid ts else ts)
          = id ts := by
      intro ts hts
      rw [if_neg (hnorow ts hts)]
      rfl
    rw [List.map_congr_left hcong, List.map_id]
  simp only [updatePosition, hL]
  rw [if_neg hfields]
  cases gid with
  | absent => simp [hmap]
  | null => simp [hmap]
  | num g =>
    simp [hmap]
    intro ts hts h1 h2
    exact absurd ⟨h1, h2⟩ (hnorow ts hts)

/-- Witness for C7 at the sample state: table id 99 has no row for
2024-01-01, and updating its x answers ok with the state unchanged. -/
theorem updatePosition_unknown_table_noop_ok_witness :
    updatePosition "2024-01-01" 99 (some 3) none GroupIdField.absent sampleOpen
      = (Except.ok (), sampleOpen) :=
  updatePosition_unknown_table_noop_ok "2024-01-01" 99 (some 3) none GroupIdField.absent
    sampleOpen { id := 1, date := "2024-01-01" } (by decide) (by decide) (by decide)

/-- C8: when a group already holds a reservation, a further create call
(no reservationId) with finite groupId and partySize, truthy time and
name, and a group satisfying the foreign key succeeds: no Conflict is
produced, a second reservation bound to the same group is inserted, and
afterwards two distinct reservations of that group exist.  The manager
does not enforce the one-reservation-per-group cap at write time. -/
theorem second_reservation_same_group_allowed
    (date : String) (g : Int) (tstr nstr : String) (p : Int) (nts : Option String)
    (now : String) (db : DB) (layout : LayoutInstance) (r0 : Reservation) (G : Nat)
    (hL : findLayout date db = some layout)
    (ht : tstr ≠ "") (hn : nstr ≠ "")
    (hG : (G : Int) = g)
    (hfk : ∃ gr ∈ db.tableGroups, gr.id = G)
    (hr0 : r0 ∈ db.reservations) (_hr0L : r0.layoutInstanceId = layout.id)
    (hr0G : r0.groupId = G)
    (hfresh : ∀ r ∈ db.reservations, r.id < db.nextReservationId) :
    (upsertReservation date
        { groupId := some g, reservationId := none, time := some tstr,
          name := some nstr, partySize := some p, notes := nts } now db) =
      (Except.ok
          { id := (db.nextReservationId : Int), groupId := g, time := tstr,
            name := nstr, partySize := p, notes := jsNotes nts },
        { db with
          reservations := db.reservations ++
            [{ id := db.nextReservationId, layoutInstanceId := layout.id, groupId := g.toNat,
               time := tstr, name := nstr, partySize := p, notes := jsNotes nts,
               createdAt := now, updatedAt := now }],
          nextReservationId := db.nextReservationId + 1 }) ∧
    (∃ r1 ∈ (upsertReservation date
        { groupId := some g, reservationId := none, time := some tstr,
          name := some nstr, partySize := some p, notes := nts } now db).2.reservations,
      ∃ r2 ∈ (upsertReservation date
        { groupId := some g, reservationId := none, time := some tstr,
          name := some nstr, partySize := some p, notes := nts } now db).2.reservations,
      r1.id ≠ r2.id ∧ r1.groupId = G ∧ r2.groupId = G) := by
  obtain ⟨gr, hgr, hgrid⟩ := hfk
  have hfka : (db.tableGroups.any (fun gr => decide (matchesId gr.id g))) = true := by
    rw [List.any_eq_true]
    refine ⟨gr, hgr, ?_⟩
    rw [decide_eq_true_eq]
    unfold matchesId
    rw [hgrid, hG]
  have hgt : g.toNat = G := by
    rw [← hG]
    exact Int.toNat_natCast G
  have hstep : (upsertReservation date
      { groupId := some g, reservationId := none, time := some tstr,
        name := some nstr, partySize := some p, notes := nts } now db) =
      (Except.ok
          { id := (db.nextReservationId : Int), groupId := g, time := tstr,
            name := nstr, partySize := p, notes := jsNotes nts },
        { db with
          reservations := db.reservations ++
            [{ id := db.nextReservationId, layoutInstanceId := layout.id, groupId := g.toNat,
               time := tstr, name := nstr, partySize := p, notes := jsNotes nts,
               createdAt := now, updatedAt := now }],
          nextReservationId := db.nextReservationId + 1 }) := by
    unfold upsertReservation
    dsimp only
    rw [if_neg (by simp [jsTruthy, ht, hn]), hL]
    dsimp only
    rw [if_pos hfka]
    rfl
  refine ⟨hstep, ?_⟩
  rw [hstep]
  dsimp only
  refine
    ⟨{ id := db.nextReservationId, layoutInstanceId := layout.id, groupId := g.toNat,
       time := tstr, name := nstr, partySize := p, notes := jsNotes nts,
       createdAt := now, updatedAt := now },
     ?_, r0, ?_, ?_, ?_, hr0G⟩
  · rw [List.mem_append]
    exact Or.inr (List.mem_singleton.mpr rfl)
  · rw [List.mem_append]
    exact Or.inl hr0
  · dsimp only
    have := hfresh r0 hr0
    omega
  · dsimp only
    exact hgt

/-- Witness for C8 at the sample state: group 1 already holds the Smith
reservation; creating the Jones reservation on the same group succeeds
and leaves two distinct reservations bound to group 1. -/
theorem second_reservation_same_group_allowed_witness :
    (upsertReservation "2024-01-01"
        { groupId := some 1, reservationId := none, time := some "19:00",
          name := some "Jones", partySize := some 2, notes := none } "T1" sampleReserved) =
      (Except.ok
          { id := (2 : Int), groupId := 1, time := "19:00",
            name := "Jones", partySize := 2, notes := jsNotes none },
        { sampleReserved with
          reservations := sampleReserved.reservations ++
            [{ id := 2, layoutInstanceId := 1, groupId := (1 : Int).toNat,
               time := "19:00", name := "Jones", partySize := 2, notes := jsNotes none,
               createdAt := "T1", updatedAt := "T1" }],
          nextReservationId := 3 }) ∧
    (∃ r1 ∈ (upsertReservation "2024-01-01"
        { groupId := some 1, reservationId := none, time := some "19:00",
          name := some "Jones", partySize := some 2, notes := none } "T1" sampleReserved).2.reservations,
      ∃ r2 ∈ (upsertReservation "2024-01-01"
        { groupId := some 1, reservationId := none, time := some "19:00",
          name := some "Jones", partySize := some 2, notes := none } "T1" sampleReserved).2.reservations,
      r1.id ≠ r2.id ∧ r1.groupId = 1 ∧ r2.groupId = 1) :=
  second_reservation_same_group_allowed "2024-01-01" 1 "19:00" "Jones" 2 none "T1"
    sampleReserved { id := 1, date := "2024-01-01" }
    { id := 1, layoutInstanceId := 1, groupId := 1, time := "18:30", name := "Smith",
      partySize := 4, notes := none, createdAt := "T0", updatedAt := "T0" } 1
    (by decide) (by decide) (by decide) (by decide)
    ⟨{ id := 1, layoutInstanceId := 1 }, by decide, by decide⟩
    (by decide) (by decide) (by decide) (by decide)

/-- C9: updating an existing reservation (reservationId supplied and
found in the instance) rewrites only time, name, partySize, notes, and
updatedAt.  The per-row update function leaves groupId, createdAt, id,
and layoutInstanceId of every reservation unchanged, whatever groupId
value the request carries; the request groupId is merely echoed in the
response. -/
theorem reservation_update_preserves_group_binding
    (date : String) (g rid : Int) (tstr nstr : String) (p : Int) (nts : Option String)
    (now : String) (db : DB) (layout : LayoutInstance) (r0 : Reservation)
    (hL : findLayout date db = some layout)
    (ht : tstr ≠ "") (hn : nstr ≠ "")
    (hfound : db.reservations.find? (fun r =>
      decide (matchesId r.id rid ∧ r.layoutInstanceId = layout.id)) = some r0) :
    (upsertReservation date
        { groupId := some g, reservationId := some rid, time := some tstr,
          name := some nstr, partySize := some p, notes := nts } now db) =
      (Except.ok
          { id := rid, groupId := g, time := tstr, name := nstr,
            partySize := p, notes := jsNotes nts },
        { db with reservations :=
            db.reservations.map (updRes rid tstr nstr p (jsNotes nts) now) }) ∧
    ∀ r ∈ db.reservations,
      (updRes rid tstr nstr p (jsNotes nts) now r).groupId = r.groupId ∧
      (updRes rid tstr nstr p (jsNotes nts) now r).createdAt = r.createdAt ∧
      (updRes rid tstr nstr p (jsNotes nts) now r).id = r.id ∧
      (updRes rid tstr nstr p (jsNotes nts) now r).layoutInstanceId = r.layoutInstanceId := by
  constructor
  · unfold upsertReservation
    dsimp only
    rw [if_neg (by simp [jsTruthy, ht, hn]), hL]
    dsimp only
    rw [hfound]
    rfl
  · intro r hr
    unfold updRes
    by_cases h : matchesId r.id rid
    · rw [if_pos h]
      exact ⟨rfl, rfl, rfl, rfl⟩
    · rw [if_neg h]
      exact ⟨rfl, rfl, rfl, rfl⟩

/-- Witness for C9 at the sample state: updating reservation 1 with a
request carrying groupId 42 succeeds, and the per-row update preserves
the stored groupId, createdAt, id, and layoutInstanceId of every
reservation. -/
theorem reservation_update_preserves_group_binding_witness :
    (upsertReservation "2024-01-01"
        { groupId := some 42, reservationId := some 1, time := some "20:00",
          name := some "New", partySize := some 6, notes := some "win" } "T9" sampleReserved) =
      (Except.ok
          { id := 1, groupId := 42, time := "20:00", name := "New",
            partySize := 6, notes := jsNotes (some "win") },
        { sampleReserved with reservations :=
            sampleReserved.reservations.map (updRes 1 "20:00" "New" 6 (jsNotes (some "win")) "T9") }) ∧
    ∀ r ∈ sampleReserved.reservations,
      (updRes 1 "20:00" "New" 6 (jsNotes (some "win")) "T9" r).groupId = r.groupId ∧
      (updRes 1 "20:00" "New" 6 (jsNotes (some "win")) "T9" r).createdAt = r.createdAt ∧
      (updRes 1 "20:00" "New" 6 (jsNotes (some "win")) "T9" r).id = r.id ∧
      (updRes 1 "20:00" "New" 6 (jsNotes (some "win")) "T9" r).layoutInstanceId
        = r.layoutInstanceId :=
  reservation_update_preserves_group_binding "2024-01-01" 42 1 "20:00" "New" 6 (some "win")
    "T9" sampleReserved { id := 1, date := "2024-01-01" }
    { id := 1, layoutInstanceId := 1, groupId := 1, time := "18:30", name := "Smith",
      partySize := 4, notes := none, createdAt := "T0", updatedAt := "T0" }
    (by decide) (by decide) (by decide) (by decide)

/-- Sample state where the groupId of table 2 has been cleared through
the position endpoint, leaving table 1 as the last member of group 1. -/
def sampleClearedOne : DB :=
  (updatePosition "2024-01-01" 2 none none GroupIdField.null sampleGrouped).2

/-- Sample state where the groupId of both members of group 1 has been
cleared through the position endpoint. -/
def sampleClearedBoth : DB :=
  (updatePosition "2024-01-01" 1 none none GroupIdField.null sampleClearedOne).2

/-- C10: the position endpoint accepts a groupId body field and writes it
straight into table_state without going through the grouping engine: a
finite groupId naming an existing group is stored as the membership of
the table, a null groupId clears it, the table_groups rows are never
touched, and clearing the last member this way leaves group 1 as a
table_groups row with zero members, undeleted. -/
theorem position_endpoint_groupId_bypasses_grouping_engine :
    (updatePosition "2024-01-01" 3 none none (GroupIdField.num 1) sampleGrouped).1
      = Except.ok () ∧
    (∃ ts ∈ (updatePosition "2024-01-01" 3 none none
        (GroupIdField.num 1) sampleGrouped).2.tableState,
      ts.tableId = 3 ∧ ts.groupId = some 1) ∧
    (updatePosition "2024-01-01" 3 none none (GroupIdField.num 1) sampleGrouped).2.tableGroups
      = sampleGrouped.tableGroups ∧
    (updatePosition "2024-01-01" 2 none none GroupIdField.null sampleGrouped).1
      = Except.ok () ∧
    (updatePosition "2024-01-01" 1 none none GroupIdField.null sampleClearedOne).1
      = Except.ok () ∧
    sampleClearedBoth.tableGroups = [{ id := 1, layoutInstanceId := 1 }] ∧
    ¬ hasMember sampleClearedBoth { id := 1, layoutInstanceId := 1 } := by
  refine ⟨by decide, by decide, by decide, by decide, by decide, by decide, by decide⟩
